import Mathlib

/-!
Verification of the declared infrastructure topology of the
serverless CRUD API stack (src/cdk/index.ts).

The source file declares, with fixed literals only:
  - one DynamoDB table descriptor (`dynamoTable`),
  - one shared function configuration (`nodeJsFunctionProps`),
  - five Lambda function descriptors,
  - five read/write permission grants,
  - a REST API with two route nodes (`/items`, `/items/\x7bid\x7d`) whose
    method entries bind HTTP verbs to the functions, and
  - a CORS preflight attachment routine (`addCorsOptions`).

Every definition below is a direct shallow embedding of the corresponding
declaration in src/cdk/index.ts.
-/

namespace CrudStack

/-- Partition-key declaration of a table: attribute name and type
(src/cdk/index.ts lines 24-27). -/
structure PartitionKey where
  name : String
  type : String
deriving DecidableEq, Repr

/-- Descriptor of a DynamoDB table as declared with `new Table`
(src/cdk/index.ts lines 23-30): construct id, partition key,
table name, removal policy. -/
structure TableDescriptor where
  constructId : String
  partitionKey : PartitionKey
  tableName : String
  removalPolicy : String
deriving DecidableEq, Repr

/-- The single table descriptor (src/cdk/index.ts lines 23-30). -/
def dynamoTable : TableDescriptor :=
  { constructId := "items"
    partitionKey := { name := "id", type := "STRING" }
    tableName := "items"
    removalPolicy := "DESTROY" }

/-- Bundling options of `nodeJsFunctionProps` (src/cdk/index.ts lines 33-37). -/
structure BundlingOptions where
  externalModules : List String
deriving DecidableEq, Repr

/-- Shared NodejsFunction configuration: bundling, environment map,
runtime (src/cdk/index.ts lines 32-43). -/
structure FunctionProps where
  bundling : BundlingOptions
  environment : List (String × String)
  runtime : String
deriving DecidableEq, Repr

/-- The shared configuration value spread into every function constructor
call (src/cdk/index.ts lines 32-43). `TABLE_NAME` is set from
`dynamoTable.tableName`, `PRIMARY_KEY` from the literal "id". -/
def nodeJsFunctionProps : FunctionProps :=
  { bundling := { externalModules := ["aws-sdk"] }
    environment := [("PRIMARY_KEY", "id"), ("TABLE_NAME", dynamoTable.tableName)]
    runtime := "NODEJS_20_X" }

/-- Descriptor of one NodejsFunction: construct id, entry file (as the
path segments handed to `join`, `__dirname` elided), and the spread
shared props (src/cdk/index.ts lines 45-64). -/
structure FunctionDescriptor where
  constructId : String
  entry : List String
  props : FunctionProps
deriving DecidableEq, Repr

/-- Function descriptor for `getOneLambda` (src/cdk/index.ts lines 45-48). -/
def getOneLambda : FunctionDescriptor :=
  { constructId := "getOneItemFunction"
    entry := ["..", "lambdas", "get-one.ts"]
    props := nodeJsFunctionProps }

/-- Function descriptor for `getAllLambda` (src/cdk/index.ts lines 49-52). -/
def getAllLambda : FunctionDescriptor :=
  { constructId := "getAllItemsFunction"
    entry := ["..", "lambdas", "get-all.ts"]
    props := nodeJsFunctionProps }

/-- Function descriptor for `createOneLambda` (src/cdk/index.ts lines 53-56). -/
def createOneLambda : FunctionDescriptor :=
  { constructId := "createItemFunction"
    entry := ["..", "lambdas", "create.ts"]
    props := nodeJsFunctionProps }

/-- Function descriptor for `updateOneLambda` (src/cdk/index.ts lines 57-60). -/
def updateOneLambda : FunctionDescriptor :=
  { constructId := "updateItemFunction"
    entry := ["..", "lambdas", "update-one.ts"]
    props := nodeJsFunctionProps }

/-- Function descriptor for `deleteOneLambda` (src/cdk/index.ts lines 61-64). -/
def deleteOneLambda : FunctionDescriptor :=
  { constructId := "deleteItemFunction"
    entry := ["..", "lambdas", "delete-one.ts"]
    props := nodeJsFunctionProps }

/-- The five function descriptors, in source declaration order
(src/cdk/index.ts lines 45-64). -/
def stackFunctions : List FunctionDescriptor :=
  [getOneLambda, getAllLambda, createOneLambda, updateOneLambda, deleteOneLambda]

/-- A permission grant relating one function to one table with an access
level (the relation created by `grantReadWriteData`). -/
structure Grant where
  functionId : String
  tableId : String
  access : String
deriving DecidableEq, Repr

/-- Embedding of `table.grantReadWriteData(fn)`: a read/write grant of the
table to the function (src/cdk/index.ts lines 67-71). -/
def grantReadWriteData (t : TableDescriptor) (f : FunctionDescriptor) : Grant :=
  { functionId := f.constructId, tableId := t.constructId, access := "readWrite" }

/-- The five grants, in source call order (src/cdk/index.ts lines 67-71). -/
def stackGrants : List Grant :=
  [grantReadWriteData dynamoTable getAllLambda,
   grantReadWriteData dynamoTable getOneLambda,
   grantReadWriteData dynamoTable createOneLambda,
   grantReadWriteData dynamoTable updateOneLambda,
   grantReadWriteData dynamoTable deleteOneLambda]

/-- One integration response of a MockIntegration: status code and
response parameters (src/cdk/index.ts lines 116-128). -/
structure IntegrationResponse where
  statusCode : String
  responseParameters : List (String × String)
deriving DecidableEq, Repr

/-- The props handed to `new MockIntegration` (src/cdk/index.ts lines 115-135). -/
structure MockIntegrationProps where
  integrationResponses : List IntegrationResponse
  passthroughBehavior : String
  requestTemplates : List (String × String)
deriving DecidableEq, Repr

/-- An integration bound to a method entry: either a LambdaIntegration
named by the target function construct id (src/cdk/index.ts lines 74-78)
or a MockIntegration (src/cdk/index.ts lines 115-135). -/
inductive Integration where
  | lambdaIntegration (functionId : String)
  | mockIntegration (props : MockIntegrationProps)
deriving DecidableEq, Repr

/-- One method response declaration: status code and a map marking which
response headers the method may return (src/cdk/index.ts lines 137-147). -/
structure MethodResponse where
  statusCode : String
  responseParameters : List (String × Bool)
deriving DecidableEq, Repr

/-- One method entry on a route node, as recorded by `addMethod`:
HTTP verb, bound integration, the declared authorization type
(`Option.none` when the call supplies no `authorizationType`),
and the declared method responses. -/
structure MethodEntry where
  httpMethod : String
  integration : Integration
  authorizationType : Option String
  methodResponses : List MethodResponse
deriving DecidableEq, Repr

/-- A route node: its path part, its full path, and its method entries in
insertion order. -/
structure RouteNode where
  pathPart : String
  fullPath : String
  methods : List MethodEntry
deriving DecidableEq, Repr

/-- Embedding of `resource.addMethod(verb, integ, options)`: appends one
method entry to the node (src/cdk/index.ts lines 90-107, 113-149). -/
def addMethod (r : RouteNode) (verb : String) (integ : Integration)
    (auth : Option String) (responses : List MethodResponse) : RouteNode :=
  { r with methods := r.methods ++
      [{ httpMethod := verb, integration := integ,
         authorizationType := auth, methodResponses := responses }] }

/-- Embedding of `parent.addResource(pathPart)`: a fresh child node with
no methods (src/cdk/index.ts lines 88, 98). -/
def addResource (parent : RouteNode) (part : String) : RouteNode :=
  { pathPart := part, fullPath := parent.fullPath ++ "/" ++ part, methods := [] }

/-- The root resource of the REST API (`api.root`). -/
def apiRoot : RouteNode :=
  { pathPart := "", fullPath := "", methods := [] }

/-- The shared method options: authorization type NONE
(src/cdk/index.ts lines 84-86). -/
def methodOption : Option String := some "NONE"

/-- The single integration response of the CORS MockIntegration, with the
four fixed response headers in source order
(src/cdk/index.ts lines 117-128). -/
def corsIntegrationResponse : IntegrationResponse :=
  { statusCode := "200"
    responseParameters :=
      [("method.response.header.Access-Control-Allow-Headers",
        "\x27Content-Type,X-Amz-Date,Authorization,X-Api-Key,X-Amz-Security-Token,X-Amz-User-Agent\x27"),
       ("method.response.header.Access-Control-Allow-Origin", "\x27*\x27"),
       ("method.response.header.Access-Control-Allow-Credentials", "\x27false\x27"),
       ("method.response.header.Access-Control-Allow-Methods",
        "\x27OPTIONS,GET,PUT,POST,DELETE\x27")] }

/-- The MockIntegration props of the CORS OPTIONS method
(src/cdk/index.ts lines 115-135). -/
def corsMockIntegrationProps : MockIntegrationProps :=
  { integrationResponses := [corsIntegrationResponse]
    passthroughBehavior := "NEVER"
    requestTemplates := [("application/json", "\x7b\"statusCode\": 200\x7d")] }

/-- The method response declared on the CORS OPTIONS method
(src/cdk/index.ts lines 137-147). -/
def corsMethodResponse : MethodResponse :=
  { statusCode := "200"
    responseParameters :=
      [("method.response.header.Access-Control-Allow-Headers", true),
       ("method.response.header.Access-Control-Allow-Methods", true),
       ("method.response.header.Access-Control-Allow-Credentials", true),
       ("method.response.header.Access-Control-Allow-Origin", true)] }

/-- Embedding of `addCorsOptions(apiResource)`: appends an OPTIONS method
entry backed by the CORS MockIntegration; the call passes no
authorization type (src/cdk/index.ts lines 112-150). -/
def addCorsOptions (apiResource : RouteNode) : RouteNode :=
  addMethod apiResource "OPTIONS"
    (Integration.mockIntegration corsMockIntegrationProps)
    Option.none [corsMethodResponse]

/-- The `/items` route node with its methods in source order: GET bound to
the list-all function, POST bound to the create function, then the CORS
OPTIONS entry (src/cdk/index.ts lines 88-96). -/
def itemsResource : RouteNode :=
  addCorsOptions
    (addMethod
      (addMethod (addResource apiRoot "items")
        "GET" (Integration.lambdaIntegration getAllLambda.constructId)
        methodOption [])
      "POST" (Integration.lambdaIntegration createOneLambda.constructId)
      methodOption [])

/-- The `/items/\x7bid\x7d` route node with its methods in source order:
GET bound to the read-one function, PUT to the update function, DELETE to
the delete function, then the CORS OPTIONS entry
(src/cdk/index.ts lines 98-108). -/
def singleItemResource : RouteNode :=
  addCorsOptions
    (addMethod
      (addMethod
        (addMethod (addResource itemsResource "{id}")
          "GET" (Integration.lambdaIntegration getOneLambda.constructId)
          methodOption [])
        "PUT" (Integration.lambdaIntegration updateOneLambda.constructId)
        methodOption [])
      "DELETE" (Integration.lambdaIntegration deleteOneLambda.constructId)
      methodOption [])

/-- The complete descriptor graph emitted by one build of
`ApiLambdaCrudDynamoDBStack` (src/cdk/index.ts lines 19-110). -/
structure StackModel where
  tables : List TableDescriptor
  functions : List FunctionDescriptor
  grants : List Grant
  routes : List RouteNode
deriving DecidableEq, Repr

/-- The descriptor graph built by the stack constructor from its fixed
literals (src/cdk/index.ts lines 19-110). -/
def apiLambdaCrudDynamoDBStack : StackModel :=
  { tables := [dynamoTable]
    functions := stackFunctions
    grants := stackGrants
    routes := [itemsResource, singleItemResource] }

/-- Lookup of an environment variable in a function descriptor's
environment map. -/
def lookupEnv (f : FunctionDescriptor) (key : String) : Option String :=
  (f.props.environment.find? (fun p => p.fst == key)).map Prod.snd

/-- The integration bound to the first method entry of a given verb on a
route node. -/
def lookupIntegration (r : RouteNode) (verb : String) : Option Integration :=
  (r.methods.find? (fun m => m.httpMethod == verb)).map MethodEntry.integration

/-- Total number of method entries over all route nodes of a stack. -/
def totalMethodEntries (s : StackModel) : Nat :=
  (s.routes.map (fun r => r.methods.length)).sum

/-- Number of non-preflight (verb-bound) method entries over all route
nodes of a stack. -/
def verbBoundEntries (s : StackModel) : Nat :=
  (s.routes.map (fun r =>
    (r.methods.filter (fun m => m.httpMethod != "OPTIONS")).length)).sum

end CrudStack

namespace CrudStack

/-- C1 counterexample: the build produces 7 method entries in total, not
the 8 the claim requires (the two route nodes carry 3 and 4 entries). -/
theorem total_method_entries_is_seven :
    totalMethodEntries apiLambdaCrudDynamoDBStack = 7 ∧
    totalMethodEntries apiLambdaCrudDynamoDBStack ≠ 8 := by
  constructor
  · rfl
  · decide

/-- C1 (amended): building the stack from its fixed literals yields
exactly 1 storage descriptor, 5 compute descriptors, 5 permission grants,
and 7 method entries (5 verb-bound plus 2 preflight) distributed across
exactly 2 route nodes, `/items` and `/items/\x7bid\x7d`. -/
theorem stack_build_counts :
    apiLambdaCrudDynamoDBStack.tables.length = 1 ∧
    apiLambdaCrudDynamoDBStack.functions.length = 5 ∧
    apiLambdaCrudDynamoDBStack.grants.length = 5 ∧
    apiLambdaCrudDynamoDBStack.routes.length = 2 ∧
    apiLambdaCrudDynamoDBStack.routes.map RouteNode.fullPath =
      ["/items", "/items/{id}"] ∧
    totalMethodEntries apiLambdaCrudDynamoDBStack = 7 ∧
    verbBoundEntries apiLambdaCrudDynamoDBStack = 5 := by
  refine ⟨rfl, rfl, rfl, rfl, ?_, rfl, rfl⟩
  decide

/-- C3: every one of the five compute descriptors carries both the
`PRIMARY_KEY` and the `TABLE_NAME` environment entries, with values equal
to the storage descriptor's partition-key name and table identifier. -/
theorem env_contract (f : FunctionDescriptor)
    (hf : f ∈ apiLambdaCrudDynamoDBStack.functions) :
    lookupEnv f "PRIMARY_KEY" = some dynamoTable.partitionKey.name ∧
    lookupEnv f "TABLE_NAME" = some dynamoTable.tableName := by
  fin_cases hf <;> exact ⟨rfl, rfl⟩

/-- C3 witness: the environment contract holds at the concrete descriptor
`getOneLambda`. -/
theorem env_contract_witness :
    lookupEnv getOneLambda "PRIMARY_KEY" = some dynamoTable.partitionKey.name ∧
    lookupEnv getOneLambda "TABLE_NAME" = some dynamoTable.tableName :=
  env_contract getOneLambda (by decide)

/-- C4: every compute descriptor has exactly one permission grant, that
grant targets the single storage descriptor, and its access level is
read/write. -/
theorem grant_exactly_one_readwrite (f : FunctionDescriptor)
    (hf : f ∈ apiLambdaCrudDynamoDBStack.functions) :
    (apiLambdaCrudDynamoDBStack.grants.filter
      (fun g => g.functionId == f.constructId)).length = 1 ∧
    ∀ g ∈ apiLambdaCrudDynamoDBStack.grants,
      g.functionId = f.constructId →
        g.access = "readWrite" ∧ g.tableId = dynamoTable.constructId := by
  fin_cases hf <;> exact ⟨rfl, by decide⟩

/-- C4 witness: grant uniqueness and read/write access hold at the
concrete descriptor `getAllLambda`. -/
theorem grant_exactly_one_readwrite_witness :
    (apiLambdaCrudDynamoDBStack.grants.filter
      (fun g => g.functionId == getAllLambda.constructId)).length = 1 ∧
    ∀ g ∈ apiLambdaCrudDynamoDBStack.grants,
      g.functionId = getAllLambda.constructId →
        g.access = "readWrite" ∧ g.tableId = dynamoTable.constructId :=
  grant_exactly_one_readwrite getAllLambda (by decide)

/-- C5: on `/items`, GET is bound to the list-all function and POST to the
create function; on `/items/\x7bid\x7d`, GET is bound to the read-one
function, PUT to the update function and DELETE to the delete function;
both nodes additionally carry an OPTIONS entry. -/
theorem route_verb_bindings :
    lookupIntegration itemsResource "GET" =
      some (Integration.lambdaIntegration getAllLambda.constructId) ∧
    lookupIntegration itemsResource "POST" =
      some (Integration.lambdaIntegration createOneLambda.constructId) ∧
    lookupIntegration singleItemResource "GET" =
      some (Integration.lambdaIntegration getOneLambda.constructId) ∧
    lookupIntegration singleItemResource "PUT" =
      some (Integration.lambdaIntegration updateOneLambda.constructId) ∧
    lookupIntegration singleItemResource "DELETE" =
      some (Integration.lambdaIntegration deleteOneLambda.constructId) ∧
    (lookupIntegration itemsResource "OPTIONS").isSome = true ∧
    (lookupIntegration singleItemResource "OPTIONS").isSome = true :=
  ⟨rfl, rfl, rfl, rfl, rfl, rfl, rfl⟩

/-- The four fixed CORS response-header keys, as they appear in the source
(src/cdk/index.ts lines 120-126, 141-144). -/
def corsHeaderKeys : List String :=
  ["method.response.header.Access-Control-Allow-Headers",
   "method.response.header.Access-Control-Allow-Methods",
   "method.response.header.Access-Control-Allow-Origin",
   "method.response.header.Access-Control-Allow-Credentials"]

/-- True when the node carries at least one non-preflight method entry. -/
def hasRealMethods (r : RouteNode) : Bool :=
  r.methods.any (fun m => m.httpMethod != "OPTIONS")

/-- Header keys declared across the integration responses of a method
entry (empty for a LambdaIntegration). -/
def integrationHeaderKeys (m : MethodEntry) : List String :=
  match m.integration with
  | Integration.mockIntegration p =>
      (p.integrationResponses.map
        (fun ir => ir.responseParameters.map Prod.fst)).flatten
  | Integration.lambdaIntegration _ => []

/-- Header keys declared across the method responses of a method entry. -/
def methodResponseHeaderKeys (m : MethodEntry) : List String :=
  (m.methodResponses.map (fun mr => mr.responseParameters.map Prod.fst)).flatten

/-- C2: every route node of the build that carries real (non-preflight)
methods also carries an OPTIONS entry whose response contract declares
exactly the four fixed CORS headers and no others, both in its
integration response and in its method response. -/
theorem options_exact_cors_headers (r : RouteNode)
    (hr : r ∈ apiLambdaCrudDynamoDBStack.routes)
    (hreal : hasRealMethods r = true) :
    ∃ m ∈ r.methods, m.httpMethod = "OPTIONS" ∧
      List.Perm (integrationHeaderKeys m) corsHeaderKeys ∧
      List.Perm (methodResponseHeaderKeys m) corsHeaderKeys := by
  fin_cases hr <;> decide

/-- C2 witness: the exact-CORS-headers invariant holds at the concrete
route node `/items`, which does carry real methods. -/
theorem options_exact_cors_headers_witness :
    hasRealMethods itemsResource = true ∧
    ∃ m ∈ itemsResource.methods, m.httpMethod = "OPTIONS" ∧
      List.Perm (integrationHeaderKeys m) corsHeaderKeys ∧
      List.Perm (methodResponseHeaderKeys m) corsHeaderKeys :=
  ⟨rfl, options_exact_cors_headers itemsResource (by decide) rfl⟩

/-- The preflight response contract of a route node: status code and
response parameters of the first integration response of the first
OPTIONS method entry, when one exists with a MockIntegration. -/
def preflightContract (r : RouteNode) :
    Option (String × List (String × String)) :=
  (r.methods.find? (fun m => m.httpMethod == "OPTIONS")).bind (fun m =>
    match m.integration with
    | Integration.mockIntegration p =>
        p.integrationResponses.head?.map
          (fun ir => (ir.statusCode, ir.responseParameters))
    | Integration.lambdaIntegration _ => none)

/-- C6: on every route node of the build, the declared preflight response
has status 200 and the four fixed literal header values — wildcard
origin, credentials false, and fixed header and method lists. -/
theorem preflight_fixed_contract (r : RouteNode)
    (hr : r ∈ apiLambdaCrudDynamoDBStack.routes) :
    preflightContract r = some ("200",
      [("method.response.header.Access-Control-Allow-Headers",
        "\x27Content-Type,X-Amz-Date,Authorization,X-Api-Key,X-Amz-Security-Token,X-Amz-User-Agent\x27"),
       ("method.response.header.Access-Control-Allow-Origin", "\x27*\x27"),
       ("method.response.header.Access-Control-Allow-Credentials",
        "\x27false\x27"),
       ("method.response.header.Access-Control-Allow-Methods",
        "\x27OPTIONS,GET,PUT,POST,DELETE\x27")]) := by
  fin_cases hr <;> rfl

/-- C6 witness: the fixed preflight contract holds at the concrete route
node `/items`. -/
theorem preflight_fixed_contract_witness :
    preflightContract itemsResource = some ("200",
      [("method.response.header.Access-Control-Allow-Headers",
        "\x27Content-Type,X-Amz-Date,Authorization,X-Api-Key,X-Amz-Security-Token,X-Amz-User-Agent\x27"),
       ("method.response.header.Access-Control-Allow-Origin", "\x27*\x27"),
       ("method.response.header.Access-Control-Allow-Credentials",
        "\x27false\x27"),
       ("method.response.header.Access-Control-Allow-Methods",
        "\x27OPTIONS,GET,PUT,POST,DELETE\x27")]) :=
  preflight_fixed_contract itemsResource (by decide)

/-- The authorization type a method entry resolves to: the declared one,
or NONE when the `addMethod` call supplied none, which is the default the
provisioning layer applies to a method with no authorizer. -/
def effectiveAuthorizationType (m : MethodEntry) : String :=
  m.authorizationType.getD "NONE"

/-- C7: every method entry on every route node of the build is open — its
authorization type resolves to NONE. -/
theorem all_routes_open (r : RouteNode)
    (hr : r ∈ apiLambdaCrudDynamoDBStack.routes)
    (m : MethodEntry) (hm : m ∈ r.methods) :
    effectiveAuthorizationType m = "NONE" := by
  fin_cases hr <;> fin_cases hm <;> rfl

/-- C7 witness: the GET entry of the concrete route node `/items` is
open. -/
theorem all_routes_open_witness :
    effectiveAuthorizationType
      { httpMethod := "GET"
        integration := Integration.lambdaIntegration "getAllItemsFunction"
        authorizationType := some "NONE"
        methodResponses := [] } = "NONE" :=
  all_routes_open itemsResource (by decide) _ (by decide)

/-- Response contracts (integration responses) of every OPTIONS entry of a
route node, in insertion order. -/
def optionsContracts (r : RouteNode) : List (List IntegrationResponse) :=
  (r.methods.filter (fun m => m.httpMethod == "OPTIONS")).map (fun m =>
    match m.integration with
    | Integration.mockIntegration p => p.integrationResponses
    | Integration.lambdaIntegration _ => [])

/-- Helper: one application of the CORS routine appends exactly one OPTIONS
contract, the fixed integration response. -/
theorem optionsContracts_addCorsOptions (n : RouteNode) :
    optionsContracts (addCorsOptions n) =
      optionsContracts n ++ [[corsIntegrationResponse]] := by
  simp [optionsContracts, addCorsOptions, addMethod, List.filter_append,
    corsMockIntegrationProps]

/-- C8: the CORS attachment routine is idempotent with respect to the
response contract: after a second application to a node that already went
through it, the first OPTIONS contract is unchanged and the set of OPTIONS
contracts present on the node is unchanged. -/
theorem addCorsOptions_idempotent_contract (n : RouteNode) :
    (optionsContracts (addCorsOptions (addCorsOptions n))).head? =
      (optionsContracts (addCorsOptions n)).head? ∧
    ∀ c, c ∈ optionsContracts (addCorsOptions (addCorsOptions n)) ↔
      c ∈ optionsContracts (addCorsOptions n) := by
  rw [optionsContracts_addCorsOptions (addCorsOptions n),
    optionsContracts_addCorsOptions n]
  constructor
  · cases optionsContracts n <;> rfl
  · intro c
    simp only [List.mem_append, List.mem_singleton]
    tauto

/-- C8 witness: contract idempotence holds at the concrete node `/items`,
which already carries an OPTIONS entry. -/
theorem addCorsOptions_idempotent_contract_witness :
    (optionsContracts (addCorsOptions (addCorsOptions itemsResource))).head? =
      (optionsContracts (addCorsOptions itemsResource)).head? :=
  (addCorsOptions_idempotent_contract itemsResource).1

/-- The value of the Access-Control-Allow-Methods header in a route node's
preflight contract. -/
def allowMethodsHeaderValue (r : RouteNode) : Option String :=
  (preflightContract r).bind (fun c =>
    (c.2.find?
      (fun p => p.fst == "method.response.header.Access-Control-Allow-Methods")).map
      Prod.snd)

/-- C9: both route nodes advertise the identical fixed preflight value
OPTIONS,GET,PUT,POST,DELETE, although the `/items` node declares no PUT
and no DELETE method entry. -/
theorem allow_methods_advertises_unbound_verbs :
    allowMethodsHeaderValue itemsResource =
      some "\x27OPTIONS,GET,PUT,POST,DELETE\x27" ∧
    allowMethodsHeaderValue singleItemResource =
      some "\x27OPTIONS,GET,PUT,POST,DELETE\x27" ∧
    lookupIntegration itemsResource "PUT" = none ∧
    lookupIntegration itemsResource "DELETE" = none :=
  ⟨rfl, rfl, rfl, rfl⟩

/-- C10: all five compute descriptors share one configuration value, so
their props (runtime, bundling, environment) are pairwise identical, and
distinct descriptors differ in construct id and entry reference. -/
theorem functions_share_props (f g : FunctionDescriptor)
    (hf : f ∈ apiLambdaCrudDynamoDBStack.functions)
    (hg : g ∈ apiLambdaCrudDynamoDBStack.functions) :
    f.props = g.props ∧
    (f ≠ g → f.constructId ≠ g.constructId ∧ f.entry ≠ g.entry) := by
  fin_cases hf <;> fin_cases hg <;> exact ⟨rfl, by decide⟩

/-- C10 witness: shared props and distinct identifiers hold at the
concrete pair `getOneLambda`, `getAllLambda`. -/
theorem functions_share_props_witness :
    getOneLambda.props = getAllLambda.props ∧
    (getOneLambda ≠ getAllLambda →
      getOneLambda.constructId ≠ getAllLambda.constructId ∧
      getOneLambda.entry ≠ getAllLambda.entry) :=
  functions_share_props getOneLambda getAllLambda (by decide) (by decide)

end CrudStack
